import Mathlib

/-!
Shallow embedding of the voice intent-resolution engine of
`src/sensai-ai-main/src/api/routes/voice.py`.

Python dictionaries that serve as per-user memory records are modelled by
their lookup function `String → Option MemVal`; finite patch dictionaries
(request bodies, parsed JSON objects) are modelled as association lists.
Python string formatting of a possibly-absent value renders `None` for an
absent value, as `str(None)` does.
-/

/-- One entry of `ROUTE_MAPPING` (voice.py lines 66-151). -/
structure RouteInfo where
  route : String
  context : String
  selectors : List (String × String)
  capabilities : List String
  next_actions : List (String × String)
deriving DecidableEq

/-- The `context_analysis` sub-dictionary built at voice.py lines 293-297. -/
structure InnerAnalysis where
  current_capabilities : List String
  suggested_next_steps : Option String
  available_selectors : List (String × String)
deriving DecidableEq

/-- The dictionary returned by `analyze_page_context` (voice.py lines 287-298). -/
structure ContextAnalysis where
  route_key : String
  route_info : RouteInfo
  page_state : String
  available_actions : List String
  recommended_action : Option String
  context_analysis : InnerAnalysis
deriving DecidableEq

/-- Values stored in a memory record or a slot map. Mirrors the JSON-like
values the Python code actually stores: strings, booleans, numbers, null,
string arrays (only the empty array appears, in the default record) and the
page-context-analysis dictionary cached under `lastContext`. -/
inductive MemVal where
  | str (s : String)
  | bool (b : Bool)
  | nat (n : Nat)
  | null
  | strList (xs : List String)
  | ctx (c : ContextAnalysis)
deriving DecidableEq

/-- A per-user memory record (a Python dict), modelled by its lookup function. -/
abbrev Mem := String → Option MemVal

/-- The empty dictionary. -/
def emptyMem : Mem := fun _ => Option.none

/-- `m["k"] = v` / one key of a `\x7b**m, "k": v\x7d` comprehension: override one key. -/
def memSet (m : Mem) (k : String) (v : MemVal) : Mem :=
  fun q => if q = k then some v else m q

/-- `m.update(p)` / `\x7b**m, **p\x7d`: merge a finite patch dictionary over a
record, later occurrences of a key overriding earlier ones. -/
def memUpdList (m : Mem) (p : List (String × MemVal)) : Mem :=
  p.foldl (fun acc kv => memSet acc kv.1 kv.2) m

/-- View a finite dictionary (association list) as a memory record. -/
def memFromList (p : List (String × MemVal)) : Mem :=
  memUpdList emptyMem p

/-- The `ROUTE_MAPPING["home"]` entry (voice.py lines 67-84). -/
def homeInfo : RouteInfo where
  route := "/"
  context := "Home page with course overview"
  selectors :=
    [("create_course_btn", "button:contains(\x27Create course\x27)"),
     ("course_cards", "[class*=\x27course\x27]"),
     ("voice_button", "button[title*=\x27Voice\x27]"),
     ("teaching_tab", "button:contains(\x27Created by you\x27)"),
     ("learning_tab", "button:contains(\x27Enrolled courses\x27)")]
  capabilities := ["create_course", "browse_courses", "switch_tabs", "voice_guide"]
  next_actions :=
    [("no_courses", "create first course or browse available courses"),
     ("has_courses", "view course details, create new course, or manage existing ones"),
     ("teaching_mode", "create new course or manage existing courses"),
     ("learning_mode", "browse and join new courses")]

/-- The `ROUTE_MAPPING["signup"]` entry (voice.py lines 85-101). -/
def signupInfo : RouteInfo where
  route := "/signup"
  context := "Account creation and registration"
  selectors :=
    [("email_field", "input[type=\x27email\x27]"),
     ("password_field", "input[type=\x27password\x27]"),
     ("confirm_password", "input[name*=\x27confirm\x27]"),
     ("signup_button", "button[type=\x27submit\x27]"),
     ("login_link", "a[href*=\x27login\x27]")]
  capabilities := ["fill_form", "submit_registration", "validate_inputs"]
  next_actions :=
    [("form_empty", "fill in email and password to create account"),
     ("form_partial", "complete remaining required fields"),
     ("form_complete", "submit registration to create account")]

/-- The `ROUTE_MAPPING["login"]` entry (voice.py lines 102-118). -/
def loginInfo : RouteInfo where
  route := "/login"
  context := "User authentication and login"
  selectors :=
    [("email_field", "input[type=\x27email\x27]"),
     ("password_field", "input[type=\x27password\x27]"),
     ("login_button", "button[type=\x27submit\x27]"),
     ("signup_link", "a[href*=\x27signup\x27]"),
     ("forgot_password", "a[href*=\x27forgot\x27]")]
  capabilities := ["authenticate", "navigate_to_signup", "reset_password"]
  next_actions :=
    [("not_registered", "create new account or recover existing account"),
     ("forgot_password", "use password reset option"),
     ("ready_to_login", "enter credentials and sign in")]

/-- The `ROUTE_MAPPING["course_detail"]` entry (voice.py lines 119-134). -/
def courseDetailInfo : RouteInfo where
  route := "/course/"
  context := "Individual course page with tasks and content"
  selectors :=
    [("join_button", "button:contains(\x27Join\x27)"),
     ("task_list", "[class*=\x27task\x27]"),
     ("submit_button", "button:contains(\x27Submit\x27)"),
     ("course_nav", "[class*=\x27nav\x27]")]
  capabilities := ["join_course", "view_tasks", "submit_assignments", "navigate_content"]
  next_actions :=
    [("not_enrolled", "join course to access content and assignments"),
     ("enrolled", "view tasks, submit assignments, or access course materials"),
     ("task_pending", "complete and submit pending assignments")]

/-- The `ROUTE_MAPPING["admin_dashboard"]` entry (voice.py lines 135-150). -/
def adminDashboardInfo : RouteInfo where
  route := "/school/admin"
  context := "Administrative dashboard for course management"
  selectors :=
    [("create_course_btn", "button:contains(\x27Create\x27)"),
     ("course_list", "[class*=\x27course\x27]"),
     ("student_list", "[class*=\x27student\x27]"),
     ("analytics", "[class*=\x27analytics\x27]")]
  capabilities := ["create_course", "manage_courses", "view_analytics", "manage_students"]
  next_actions :=
    [("no_courses", "create your first course to get started"),
     ("has_courses", "manage existing courses or create new ones"),
     ("view_analytics", "check course performance and student progress")]

/-- `ROUTE_MAPPING` (voice.py lines 66-151) as an association list. -/
def ROUTE_MAPPING : List (String × RouteInfo) :=
  [("home", homeInfo), ("signup", signupInfo), ("login", loginInfo),
   ("course_detail", courseDetailInfo), ("admin_dashboard", adminDashboardInfo)]

/-- Whether `needle` occurs as a contiguous run inside `hay`. -/
def subSearch (needle : List Char) : List Char → Bool
  | [] => needle.isEmpty
  | c :: rest => needle.isPrefixOf (c :: rest) || subSearch needle rest

/-- Python substring test `needle in s`. -/
def isSub (needle s : String) : Bool :=
  subSearch needle.data s.data

/-- The page signals `analyze_page_context` reads out of its `page_context`
dictionary, with the defaults its `.get` calls supply (False / 0). -/
structure PageContext where
  hasCourses : Bool := false
  hasTeaching : Bool := false
  hasLearning : Bool := false
  formFilled : Nat := 0
  isEnrolled : Bool := false
  hasTasks : Bool := false
deriving DecidableEq

/-- Route normalization of `analyze_page_context` (voice.py lines 216-228):
the ordered pattern match on the current route, defaulting to "home". An
absent or empty route is falsy in Python, leaving the default. -/
def computeRouteKey (current_route : Option String) : String :=
  match current_route with
  | Option.none => "home"
  | some r =>
    if r = "/" ∨ r = "/home" then "home"
    else if isSub "/signup" r then "signup"
    else if isSub "/login" r then "login"
    else if isSub "/course/" r then "course_detail"
    else if isSub "/school/admin" r then "admin_dashboard"
    else "home"

/-- `analyze_page_context` (voice.py lines 213-298): pure context analysis.
Returns the route key, the static route record, the refined page state,
available actions, the recommended action, and the inner summary. -/
def analyze_page_context (current_route : Option String)
    (page_context : Option PageContext) : ContextAnalysis :=
  let route_key := computeRouteKey current_route
  let route_info := (ROUTE_MAPPING.lookup route_key).getD homeInfo
  let sar : String × List String × Option String :=
    match page_context with
    | Option.none => ("unknown", [], Option.none)
    | some pc =>
      if route_key = "home" then
        if ¬ pc.hasCourses then
          ("no_courses", ["create_course", "browse_courses", "get_help"],
           some "create your first course to get started")
        else if pc.hasTeaching ∧ pc.hasLearning then
          ("has_both", ["create_course", "view_courses", "manage_courses"],
           some "manage your existing courses or create a new one")
        else if pc.hasTeaching then
          ("teaching_mode", ["create_course", "manage_courses", "view_analytics"],
           some "create a new course or manage existing ones")
        else
          ("learning_mode", ["browse_courses", "join_course", "view_progress"],
           some "browse and join new courses")
      else if route_key = "signup" then
        if pc.formFilled = 0 then
          ("form_empty", [], some "fill in your email and password to create an account")
        else if pc.formFilled < 100 then
          ("form_partial", [], some "complete the remaining required fields")
        else
          ("form_complete", [], some "submit the form to create your account")
      else if route_key = "course_detail" then
        if ¬ pc.isEnrolled then
          ("not_enrolled", [], some "join this course to access content and assignments")
        else if pc.hasTasks then
          ("has_tasks", [], some "view and complete your assignments")
        else
          ("enrolled", [], some "explore course content and materials")
      else
        ("unknown", [], Option.none)
  { route_key := route_key
    route_info := route_info
    page_state := sar.1
    available_actions := sar.2.1
    recommended_action := sar.2.2
    context_analysis :=
      { current_capabilities := route_info.capabilities
        suggested_next_steps :=
          match route_info.next_actions.lookup sar.1 with
          | some v => some v
          | Option.none => sar.2.2
        available_selectors := route_info.selectors } }

/-- Python `repr` of a string (single quotes; escaping is not needed by the
strings this code builds). -/
def pyReprStr (s : String) : String := "\x27" ++ s ++ "\x27"

/-- Python `repr` of a list of strings. -/
def pyReprStrList (xs : List String) : String :=
  "[" ++ String.intercalate ", " (xs.map pyReprStr) ++ "]"

/-- Python `repr` of a string-to-string dict. -/
def pyReprStrMap (m : List (String × String)) : String :=
  "\x7b" ++ String.intercalate ", " (m.map (fun kv => pyReprStr kv.1 ++ ": " ++ pyReprStr kv.2)) ++ "\x7d"

/-- Python `repr` of a possibly-absent string (`None` renders as `None`). -/
def pyReprOptStr : Option String → String
  | Option.none => "None"
  | some s => pyReprStr s

/-- Python `repr` of a `RouteInfo` dict. -/
def pyReprRouteInfo (r : RouteInfo) : String :=
  "\x7b" ++ pyReprStr "route" ++ ": " ++ pyReprStr r.route
  ++ ", " ++ pyReprStr "context" ++ ": " ++ pyReprStr r.context
  ++ ", " ++ pyReprStr "selectors" ++ ": " ++ pyReprStrMap r.selectors
  ++ ", " ++ pyReprStr "capabilities" ++ ": " ++ pyReprStrList r.capabilities
  ++ ", " ++ pyReprStr "next_actions" ++ ": " ++ pyReprStrMap r.next_actions ++ "\x7d"

/-- Python `repr` of the inner `context_analysis` dict. -/
def pyReprInner (i : InnerAnalysis) : String :=
  "\x7b" ++ pyReprStr "current_capabilities" ++ ": " ++ pyReprStrList i.current_capabilities
  ++ ", " ++ pyReprStr "suggested_next_steps" ++ ": " ++ pyReprOptStr i.suggested_next_steps
  ++ ", " ++ pyReprStr "available_selectors" ++ ": " ++ pyReprStrMap i.available_selectors ++ "\x7d"

/-- Python `repr` of a whole `ContextAnalysis` dict. -/
def pyReprCtx (c : ContextAnalysis) : String :=
  "\x7b" ++ pyReprStr "route_key" ++ ": " ++ pyReprStr c.route_key
  ++ ", " ++ pyReprStr "route_info" ++ ": " ++ pyReprRouteInfo c.route_info
  ++ ", " ++ pyReprStr "page_state" ++ ": " ++ pyReprStr c.page_state
  ++ ", " ++ pyReprStr "available_actions" ++ ": " ++ pyReprStrList c.available_actions
  ++ ", " ++ pyReprStr "recommended_action" ++ ": " ++ pyReprOptStr c.recommended_action
  ++ ", " ++ pyReprStr "context_analysis" ++ ": " ++ pyReprInner c.context_analysis ++ "\x7d"

/-- Python `str()` of a stored value, as an f-string renders it. -/
def pyStr : MemVal → String
  | MemVal.str s => s
  | MemVal.bool b => if b then "True" else "False"
  | MemVal.nat n => toString n
  | MemVal.null => "None"
  | MemVal.strList xs => pyReprStrList xs
  | MemVal.ctx c => pyReprCtx c

/-- Python f-string rendering of a possibly-absent string. -/
def pyShowOptStr : Option String → String
  | Option.none => "None"
  | some s => s

/-- The `VoiceAction` pydantic model (voice.py lines 42-46). -/
structure VoiceAction where
  type : String
  target : Option String := Option.none
  message : Option String := Option.none
  data : Option (List (String × MemVal)) := Option.none
deriving DecidableEq

/-- An action dictionary as parsed out of the remote reply JSON; the keys
`enhance_action_with_context` reads. An absent-or-empty dict (both falsy in
Python) is modelled as `Option.none` at the call sites. -/
structure ActionDict where
  type : Option String := Option.none
  target : Option String := Option.none
  message : Option String := Option.none
  data : Option (List (String × MemVal)) := Option.none
deriving DecidableEq

/-- The target remapping applied by `enhance_action_with_context`
(voice.py lines 420-428): only the three hard-coded abstract names are
remapped, each only when the selector map holds an entry of that name. -/
def remapTarget (selectors : List (String × String)) (target : String) : String :=
  if target = "create_course_btn" ∧ (selectors.lookup "create_course_btn").isSome then
    (selectors.lookup "create_course_btn").getD target
  else if target = "course_cards" ∧ (selectors.lookup "course_cards").isSome then
    (selectors.lookup "course_cards").getD target
  else if target = "email_field" ∧ (selectors.lookup "email_field").isSome then
    (selectors.lookup "email_field").getD target
  else target

/-- `enhance_action_with_context` (voice.py lines 410-435). The remap runs
only for a `highlight`-typed action with a truthy (non-empty) target. -/
def enhance_action_with_context (action : Option ActionDict)
    (context_analysis : ContextAnalysis) (intent : String) : Option VoiceAction :=
  match action with
  | Option.none => Option.none
  | some a =>
    let action_type := a.type.getD "speak"
    let selectors := context_analysis.context_analysis.available_selectors
    let new_target : Option String :=
      match a.target with
      | some t =>
        if action_type = "highlight" ∧ t ≠ "" then some (remapTarget selectors t)
        else some t
      | Option.none => Option.none
    some { type := action_type, target := new_target,
           message := a.message, data := a.data }

/-- The control phrases of voice.py line 445. -/
def stopPhrases : List String := ["stop", "quit", "cancel", "exit"]

/-- The help phrases of voice.py line 455. -/
def helpPhrases : List String := ["help", "what can i do", "guide me", "what now"]

/-- The course-creation phrases of voice.py line 469. -/
def createCoursePhrases : List String := ["create course", "new course", "make course", "add course"]

/-- The course-browsing phrases of voice.py line 491. -/
def browsePhrases : List String := ["join course", "find course", "browse course", "enroll", "courses"]

/-- The account-creation phrases of voice.py line 513. -/
def accountPhrases : List String := ["create account", "sign up", "register", "new account", "get started"]

/-- The confirmation phrases of voice.py line 538. -/
def confirmPhrases : List String := ["yes", "yeah", "sure", "okay", "confirm", "do it"]

/-- Python `s.lower()`: character-wise lowering (the code only ever lowers
ASCII utterances and command tags). -/
def pyLower (s : String) : String := String.mk (s.data.map Char.toLower)

/-- Python `any(phrase in utterance_lower for phrase in phrases)`. -/
def containsAny (s : String) (phrases : List String) : Bool :=
  phrases.any (fun p => isSub p s)

/-- The dictionary either resolver returns (the shape consumed by
`process_voice_intent`): intent, slots, responseText, merged memory,
optional action, confirmation flag. -/
structure IntentResult where
  intent : String
  slots : List (String × MemVal)
  responseText : String
  memory : Mem
  action : Option VoiceAction := Option.none
  requiresConfirmation : Bool := false

/-- `process_intent_with_context` (voice.py lines 437-559): the
Deterministic Intent Resolver. Ordered phrase predicates, each branch
refined by the analyzed page context. (The lines after its final return,
voice.py 560-620, are unreachable and are not modelled.) -/
def process_intent_with_context (utterance : String) (memory : Mem)
    (current_route : Option String) (page_context : Option PageContext) : IntentResult :=
  let utterance_lower := pyLower utterance
  let ca := analyze_page_context current_route page_context
  if containsAny utterance_lower stopPhrases then
    { intent := "stop", slots := [],
      responseText := "Voice assistant stopped. You can restart by clicking the microphone button.",
      memory := memSet memory "currentStep" (MemVal.str "stopped"),
      action := Option.none, requiresConfirmation := false }
  else if containsAny utterance_lower helpPhrases then
    let recommended := ca.recommended_action
    let available := String.intercalate ", " ca.available_actions
    { intent := "help", slots := [("context", MemVal.str ca.route_key)],
      responseText := "You\x27re on the " ++ ca.route_info.context ++ ". I recommend you "
        ++ pyShowOptStr recommended ++ ". You can also " ++ available ++ ".",
      memory := memSet memory "lastContext" (MemVal.ctx ca),
      action := some { type := "speak",
                       message := some ("Here\x27s what you can do on this page: " ++ available) },
      requiresConfirmation := false }
  else if containsAny utterance_lower createCoursePhrases then
    let ta : String × Option VoiceAction :=
      if ca.route_key = "home" then
        if ca.page_state = "no_courses" then
          ("Perfect! This is exactly what you need to get started. Let me highlight the create course button for you.",
           some { type := "highlight", target := some "create_course_btn",
                  message := some "Click this button to create your first course" })
        else
          ("I\x27ll help you create a new course. Let me show you the create course button.",
           some { type := "highlight", target := some "create_course_btn",
                  message := some "Click here to create a new course" })
      else
        ("To create a course, let me take you to the home page where you can access the course creation tools.",
         some { type := "navigate", target := some "/",
                message := some "Navigating to home page for course creation" })
    { intent := "create_course",
      slots := [("action", MemVal.str "create_course"), ("context", MemVal.str ca.route_key)],
      responseText := ta.1,
      memory := memUpdList memory
        [("currentStep", MemVal.str "create_course"), ("lastContext", MemVal.ctx ca)],
      action := ta.2, requiresConfirmation := false }
  else if containsAny utterance_lower browsePhrases then
    let ta : String × Option VoiceAction :=
      if ca.route_key = "home" then
        if ca.page_state = "no_courses" then
          ("It looks like there aren\x27t any courses available yet. Would you like to create your first course instead?",
           some { type := "highlight", target := some "create_course_btn",
                  message := some "Try creating a course first" })
        else
          ("Great! I can see the available courses here. Let me highlight them for you.",
           some { type := "highlight", target := some "course_cards",
                  message := some "Here are the available courses" })
      else
        ("Let me take you to the home page where you can browse and join courses.",
         some { type := "navigate", target := some "/",
                message := some "Navigating to course browser" })
    { intent := "browse_courses",
      slots := [("action", MemVal.str "browse_courses"), ("context", MemVal.str ca.route_key)],
      responseText := ta.1,
      memory := memUpdList memory
        [("currentStep", MemVal.str "browse_courses"), ("lastContext", MemVal.ctx ca)],
      action := ta.2, requiresConfirmation := false }
  else if containsAny utterance_lower accountPhrases then
    let ta : String × Option VoiceAction :=
      if ca.route_key = "signup" then
        if ca.page_state = "form_empty" then
          ("Perfect! You\x27re on the signup page. Let me guide you through creating your account. First, click on the email field.",
           some { type := "highlight", target := some "email_field",
                  message := some "Start by entering your email address here" })
        else if ca.page_state = "form_partial" then
          ("I see you\x27ve started filling out the form. Let me help you complete the remaining fields.",
           some { type := "highlight", target := some "password_field",
                  message := some "Complete the form by filling this field" })
        else
          ("Your form looks complete! You can now submit it to create your account.",
           some { type := "highlight", target := some "signup_button",
                  message := some "Click here to create your account" })
      else
        ("I\x27ll take you to the signup page where you can create your account.",
         some { type := "navigate", target := some "/signup",
                message := some "Navigating to account creation" })
    { intent := "create_account",
      slots := [("action", MemVal.str "signup"), ("context", MemVal.str ca.route_key)],
      responseText := ta.1,
      memory := memUpdList memory
        [("currentStep", MemVal.str "create_account"), ("lastContext", MemVal.ctx ca)],
      action := ta.2, requiresConfirmation := false }
  else if containsAny utterance_lower confirmPhrases then
    let last_action : MemVal :=
      match memory "lastSuggestedAction" with
      | some v => v
      | Option.none =>
        match ca.recommended_action with
        | some s => MemVal.str s
        | Option.none => MemVal.null
    { intent := "confirm",
      slots := [("confirmation", MemVal.bool true), ("context", MemVal.str ca.route_key)],
      responseText := "Great! Let me help you " ++ pyStr last_action ++ ".",
      memory := memUpdList memory
        [("lastConfirmation", MemVal.bool true), ("confirmedAction", last_action)],
      action := Option.none, requiresConfirmation := false }
  else
    let recommended := ca.recommended_action
    { intent := "contextual_help",
      slots := [("context", MemVal.str ca.route_key), ("page_state", MemVal.str ca.page_state)],
      responseText := "I\x27m not sure what you want to do with \x27" ++ utterance
        ++ "\x27, but based on where you are, I recommend you " ++ pyShowOptStr recommended
        ++ ". You can also say: " ++ String.intercalate ", " (ca.available_actions.take 3) ++ ".",
      memory := memUpdList memory
        [("lastContext", MemVal.ctx ca), ("lastUtterance", MemVal.str utterance)],
      action := some { type := "speak",
                       message := some ("Try saying: " ++ String.intercalate ", " (ca.available_actions.take 2)) },
      requiresConfirmation := false }

/-- The remote reply JSON object, restricted to the keys
`get_smart_openai_response` reads after `json.loads` succeeds
(voice.py lines 379-401). A missing key makes the corresponding `.get`
default apply. An absent-or-empty `action` value is `Option.none` (both are
falsy for the emptiness test inside `enhance_action_with_context`). -/
structure ParsedReply where
  intent : Option String := Option.none
  slots : Option (List (String × MemVal)) := Option.none
  responseText : Option String := Option.none
  memory : Option (List (String × MemVal)) := Option.none
  action : Option ActionDict := Option.none
  requiresConfirmation : Option Bool := Option.none
deriving DecidableEq

/-- Outcome of the remote text-completion attempt, as observed by
`get_smart_openai_response`: no credential configured (voice.py line 305),
an exception anywhere in the remote call (line 406), a completion whose
text `json.loads` rejects (line 403), or a parsed JSON reply. -/
inductive RemoteOutcome where
  | noKey
  | failure
  | replyUnparsable
  | replyParsed (r : ParsedReply)
deriving DecidableEq

/-- The remote capability is unreachable or its reply unusable: the three
cases that voice.py lines 305-306, 403-404 and 406-408 route to the
deterministic resolver. -/
def remoteUnavailable (o : RemoteOutcome) : Prop :=
  o = RemoteOutcome.noKey ∨ o = RemoteOutcome.failure ∨ o = RemoteOutcome.replyUnparsable

/-- The value stored under `lastRoute`: the current route, or JSON null when
the request carried none. -/
def optStrVal : Option String → MemVal
  | Option.none => MemVal.null
  | some s => MemVal.str s

/-- `get_smart_openai_response` (voice.py lines 300-408), with the remote
interaction abstracted into a `RemoteOutcome` and the wall-clock timestamp
`datetime.now().isoformat()` passed in as `now`. -/
def get_smart_openai_response (utterance : String) (memory : Mem)
    (current_route : Option String) (page_context : Option PageContext)
    (remote : RemoteOutcome) (now : String) : IntentResult :=
  match remote with
  | RemoteOutcome.noKey => process_intent_with_context utterance memory current_route page_context
  | RemoteOutcome.failure => process_intent_with_context utterance memory current_route page_context
  | RemoteOutcome.replyUnparsable => process_intent_with_context utterance memory current_route page_context
  | RemoteOutcome.replyParsed r =>
    let context_analysis := analyze_page_context current_route page_context
    let enhanced_action :=
      enhance_action_with_context r.action context_analysis (r.intent.getD "unknown")
    { intent := r.intent.getD "unknown"
      slots := r.slots.getD []
      responseText := r.responseText.getD "I\x27m here to help!"
      memory :=
        memSet (memSet (memSet (memUpdList memory (r.memory.getD []))
          "lastRoute" (optStrVal current_route))
          "lastContext" (MemVal.ctx context_analysis))
          "lastInteraction" (MemVal.str now)
      action := enhanced_action
      requiresConfirmation := r.requiresConfirmation.getD false }

/-- The default record `load_user_memory` builds for an unknown user
(voice.py lines 799-804). -/
def defaultMemory : Mem :=
  memFromList
    [("currentStep", MemVal.str "welcome"),
     ("onboardingProgress", MemVal.strList []),
     ("lastResponse", MemVal.str "Hi! I\x27m your SensAI assistant. I can help you create an account, join a course, or submit your first task.")]

/-- `load_user_memory` (voice.py lines 786-811) for one user: the stored
record when one exists, the fixed default otherwise. (The defensive
database-error branch, which substitutes a shorter default, is a persistence
failure outside this model.) -/
def load_user_memory (stored : Option Mem) : Mem :=
  match stored with
  | some m => m
  | Option.none => defaultMemory

/-- `request.userId or "anonymous"` — an absent or empty (falsy) user id
becomes the anonymous sentinel. -/
def effectiveUserId : Option String → String
  | Option.none => "anonymous"
  | some s => if s = "" then "anonymous" else s

/-- The `VoiceIntentRequest` body (voice.py lines 30-35); the caller-supplied
memory patch is a finite dictionary. -/
structure TurnInput where
  userId : Option String := Option.none
  utterance : String
  memory : List (String × MemVal) := []
  currentRoute : Option String := Option.none
  pageContext : Option PageContext := Option.none

/-- The `VoiceIntentResponse` model (voice.py lines 48-54). -/
structure VoiceIntentResponse where
  intent : String
  slots : List (String × MemVal)
  responseText : String
  memory : Mem
  action : Option VoiceAction := Option.none
  requiresConfirmation : Bool := false

/-- One row written to `voice_analytics` by `log_analytics_event`
(voice.py lines 826-847). -/
structure AnalyticsEvent where
  user_id : String
  event_type : String
  intent : Option String := Option.none
  slots : Option (List (String × MemVal)) := Option.none
  memory_snapshot : Option Mem := Option.none
  response_text : Option String := Option.none

/-- Where, if anywhere, an unexpected exception strikes inside the `try`
block of `process_voice_intent` (voice.py lines 630-702). `beforeSave`
models a defect raised before `save_user_memory` runs; `afterSave` one
raised after the save but before the response is returned (for example the
pydantic validation of `VoiceIntentResponse`, which runs on line 665 after
the save on line 651 and rejects a parsed remote reply whose `slots` is not
an object). Either way control reaches the handler at lines 704-717. -/
inductive DefectPoint where
  | noDefect
  | beforeSave
  | afterSave
deriving DecidableEq

/-- The fallback response of the error handler (voice.py lines 707-717):
intent `error`, the apology text, and a memory field that is exactly the
caller-supplied patch from the request. -/
def errorTurnResponse (requestMemory : List (String × MemVal)) : VoiceIntentResponse :=
  { intent := "error", slots := [],
    responseText := "I\x27m sorry, I encountered an error. Please try again.",
    memory := memFromList requestMemory,
    action := some { type := "speak",
                     message := some "I\x27m sorry, I encountered an error. Please try again." },
    requiresConfirmation := false }

/-- The observable outcome of one `/intent` turn: the HTTP response, the
stored memory record after the turn, and the analytics events emitted. -/
structure TurnOutcome where
  response : VoiceIntentResponse
  store : Option Mem
  events : List AnalyticsEvent

/-- `process_voice_intent` (voice.py lines 627-717): the Turn Orchestrator.
Loads memory, merges the caller patch over it, resolves (remote path
abstracted by `remote`), persists the resolver-updated memory, synthesizes a
fallback action for three intents when the resolver supplied none, responds
and emits one `intent_processed` analytics event. A `defect` other than
`noDefect` models an unexpected exception reaching the handler. -/
def process_voice_intent (req : TurnInput) (stored : Option Mem)
    (remote : RemoteOutcome) (now : String) (defect : DefectPoint) : TurnOutcome :=
  match defect with
  | DefectPoint.beforeSave =>
    { response := errorTurnResponse req.memory, store := stored, events := [] }
  | DefectPoint.afterSave =>
    let memory := memUpdList (load_user_memory stored) req.memory
    let ai := get_smart_openai_response req.utterance memory req.currentRoute req.pageContext remote now
    { response := errorTurnResponse req.memory, store := some ai.memory, events := [] }
  | DefectPoint.noDefect =>
    let user_id := effectiveUserId req.userId
    let memory := memUpdList (load_user_memory stored) req.memory
    let ai := get_smart_openai_response req.utterance memory req.currentRoute req.pageContext remote now
    let updated_memory := ai.memory
    let action : Option VoiceAction :=
      match ai.action with
      | some a => some a
      | Option.none =>
        if ai.intent = "create_course" then
          some { type := "highlight", target := some "create_course_btn",
                 message := some "Create a new course" }
        else if ai.intent = "browse_courses" then
          some { type := "navigate", target := some "/",
                 message := some "Browse available courses" }
        else if ai.intent = "create_account" then
          some { type := "navigate", target := some "/signup",
                 message := some "Create your account" }
        else Option.none
    { response :=
        { intent := ai.intent, slots := ai.slots, responseText := ai.responseText,
          memory := updated_memory, action := action,
          requiresConfirmation := ai.requiresConfirmation }
      store := some updated_memory
      events :=
        [{ user_id := user_id, event_type := "intent_processed",
           intent := some ai.intent, slots := some ai.slots,
           memory_snapshot := some updated_memory,
           response_text := some ai.responseText }] }

/-- The `VoiceCommandRequest` body (voice.py lines 37-40). -/
structure CommandInput where
  userId : Option String := Option.none
  command : String
  memory : List (String × MemVal) := []

/-- The dictionary `/command` returns (voice.py lines 754-758). -/
structure CommandResponse where
  command : String
  responseText : String
  memory : Mem

/-- Observable outcome of one `/command` call. -/
structure CommandOutcome where
  response : CommandResponse
  store : Mem
  events : List AnalyticsEvent

/-- The lookup `memory.get("lastResponse", default)` of the repeat branch,
rendered to the response string. -/
def pyStrOr (v : Option MemVal) (d : String) : String :=
  match v with
  | some v => pyStr v
  | Option.none => d

/-- `process_voice_command` (voice.py lines 719-758): the control-command
path. Merges the caller patch, branches on the lowered command tag, saves
the mutated memory and emits exactly one `command_processed` analytics
event. -/
def process_voice_command (req : CommandInput) (stored : Option Mem) : CommandOutcome :=
  let user_id := effectiveUserId req.userId
  let memory := memUpdList (load_user_memory stored) req.memory
  let command := pyLower req.command
  let tm : String × Mem :=
    if command = "stop" then
      ("Voice assistant stopped. You can restart anytime.",
       memSet memory "currentStep" (MemVal.str "stopped"))
    else if command = "repeat" then
      (pyStrOr (memory "lastResponse") "I\x27m here to help you!", memory)
    else if command = "retry" then
      ("Let\x27s try that again. What would you like to do?",
       memSet memory "currentStep" (MemVal.str "welcome"))
    else
      ("I didn\x27t understand that command. Try \x27stop\x27, \x27repeat\x27, or \x27retry\x27.", memory)
  { response := { command := command, responseText := tm.1, memory := tm.2 }
    store := tm.2
    events :=
      [{ user_id := user_id, event_type := "command_processed",
         intent := some command, slots := some [("command", MemVal.str command)],
         memory_snapshot := some tm.2, response_text := some tm.1 }] }

/-- The value the last occurrence of key `k` in the patch list carries. -/
def lastLookup : List (String × MemVal) → String → Option MemVal
  | [], _ => Option.none
  | kv :: rest, k =>
    match lastLookup rest k with
    | some v => some v
    | Option.none => if k = kv.1 then some kv.2 else Option.none

/-- The intent tags the Deterministic Intent Resolver can emit
(one per branch of `process_intent_with_context`). -/
def fallbackIntents : List String :=
  ["stop", "help", "create_course", "browse_courses", "create_account",
   "confirm", "contextual_help"]

/-- The home-page context analysis with no page signals, used by the C6
statements. -/
def c6HomeCtx : ContextAnalysis := analyze_page_context (some "/") Option.none

/-- The page signals of the C1 scenario: the home page reports no courses. -/
def c1Page : PageContext := {}

/-- The C1 turn request: utterance "create course" on route "/" with the
no-courses page context. -/
def c1Req : TurnInput :=
  { userId := some "u1", utterance := "create course",
    currentRoute := some "/", pageContext := some c1Page }

/-- The C10 counterexample request: a patch plus an utterance that makes the
resolver extend the record. -/
def c10Req : TurnInput :=
  { userId := some "u1", utterance := "hello", memory := [("x", MemVal.str "1")] }

theorem memUpdList_apply (m : Mem) (p : List (String × MemVal)) (k : String) :
    memUpdList m p k =
      match lastLookup p k with
      | some v => some v
      | Option.none => m k := by
  induction p generalizing m with
  | nil => rfl
  | cons kv rest ih =>
    show memUpdList (memSet m kv.1 kv.2) rest k = _
    rw [ih]
    show _ = (match (match lastLookup rest k with
        | some v => some v
        | Option.none => if k = kv.1 then some kv.2 else Option.none) with
      | some v => some v
      | Option.none => m k)
    cases lastLookup rest k with
    | some v => rfl
    | none =>
      show memSet m kv.1 kv.2 k = _
      unfold memSet
      cases h : (if k = kv.1 then some kv.2 else Option.none) with
      | some v =>
        split at h
        · cases h; simp_all [memSet]
        · cases h
      | none =>
        split at h
        · cases h
        · simp_all [memSet]

theorem lookup_none_lastLookup (p : List (String × MemVal)) (k : String)
    (h : p.lookup k = Option.none) : lastLookup p k = Option.none := by
  induction p with
  | nil => rfl
  | cons kv rest ih =>
    obtain ⟨k1, v1⟩ := kv
    unfold lastLookup
    cases hb : (k == k1) with
    | true =>
      exfalso
      have hs : List.lookup k ((k1, v1) :: rest) = some v1 := by
        simp [List.lookup, hb]
      have := hs.symm.trans h
      cases this
    | false =>
      have hrest : List.lookup k rest = Option.none := by
        have hs : List.lookup k ((k1, v1) :: rest) = List.lookup k rest := by
          simp [List.lookup, hb]
        rw [← hs]
        exact h
      rw [ih hrest]
      have hk : ¬ (k = k1) := beq_eq_false_iff_ne.mp hb
      simp [hk]

theorem str_append_ne_empty (s t : String) (h : s ≠ "") : s ++ t ≠ "" := by
  cases s with
  | mk a =>
    cases t with
    | mk b =>
      intro hc
      apply h
      have hd : a ++ b = [] := congrArg String.data hc
      have ha : a = [] := (List.append_eq_nil.mp hd).1
      exact congrArg String.mk ha

theorem fallback_intent_mem (u : String) (m : Mem) (r : Option String)
    (p : Option PageContext) :
    (process_intent_with_context u m r p).intent ∈ fallbackIntents := by
  unfold process_intent_with_context
  dsimp only
  repeat' split
  all_goals simp [fallbackIntents]

/-- C9: merging a memory patch over a stored record is idempotent — a second
merge of the same patch changes nothing — and every key the patch does not
mention keeps its prior value (the record is never replaced wholesale).
Models the `memory.update(request.memory)` merge of `process_voice_intent`
(voice.py line 638) and the `\x7b**memory, ...\x7d` merges of the resolvers. -/
theorem c9_memory_merge_idempotent (m : Mem) (p : List (String × MemVal)) :
    memUpdList (memUpdList m p) p = memUpdList m p
    ∧ ∀ k, p.lookup k = Option.none → memUpdList m p k = m k := by
  constructor
  · funext k
    rw [memUpdList_apply, memUpdList_apply]
    cases hl : lastLookup p k with
    | some v => rfl
    | none => rfl
  · intro k h
    rw [memUpdList_apply, lookup_none_lastLookup p k h]

/-- C9 witness: a concrete record and patch. -/
theorem c9_witness :
    (memUpdList (memUpdList (memFromList [("a", MemVal.str "1")]) [("b", MemVal.str "2")])
        [("b", MemVal.str "2")]
      = memUpdList (memFromList [("a", MemVal.str "1")]) [("b", MemVal.str "2")])
    ∧ memUpdList (memFromList [("a", MemVal.str "1")]) [("b", MemVal.str "2")] "a"
      = memFromList [("a", MemVal.str "1")] "a" :=
  ⟨(c9_memory_merge_idempotent (memFromList [("a", MemVal.str "1")]) [("b", MemVal.str "2")]).1,
   (c9_memory_merge_idempotent (memFromList [("a", MemVal.str "1")]) [("b", MemVal.str "2")]).2
     "a" rfl⟩

/-- C2: whenever the remote capability is unconfigured, fails, or returns a
reply that is not parseable JSON, `get_smart_openai_response` returns exactly
the Deterministic Intent Resolver result for the same inputs. -/
theorem c2_remote_failure_equals_deterministic (u : String) (m : Mem)
    (r : Option String) (p : Option PageContext) (o : RemoteOutcome) (now : String)
    (h : remoteUnavailable o) :
    get_smart_openai_response u m r p o now = process_intent_with_context u m r p := by
  rcases h with h | h | h <;> subst h <;> rfl

/-- C2 witness: the unparsable-reply outcome at a concrete input. -/
theorem c2_witness :
    remoteUnavailable RemoteOutcome.replyUnparsable
    ∧ get_smart_openai_response "hi" emptyMem Option.none Option.none
        RemoteOutcome.replyUnparsable "t0"
      = process_intent_with_context "hi" emptyMem Option.none Option.none :=
  ⟨Or.inr (Or.inr rfl),
   c2_remote_failure_equals_deterministic "hi" emptyMem Option.none Option.none
     RemoteOutcome.replyUnparsable "t0" (Or.inr (Or.inr rfl))⟩

/-- C7: for utterance "I want to sign up" on route "/" with no page signals,
the resolver yields intent `create_account` and a `navigate` action whose
target is `/signup`, whatever the prior memory. -/
theorem c7_signup_scenario (m : Mem) :
    (process_intent_with_context "I want to sign up" m (some "/") Option.none).intent
      = "create_account"
    ∧ (process_intent_with_context "I want to sign up" m (some "/") Option.none).action
      = some { type := "navigate", target := some "/signup",
               message := some "Navigating to account creation" } := by
  exact ⟨rfl, rfl⟩

/-- C8: for every user and stored memory, the control command "stop" sets
`currentStep` to "stopped" in the saved record and in the returned memory,
returns the fixed stop text, and emits exactly one analytics event, of type
`command_processed`. -/
theorem c8_stop_command (uid : Option String) (patch : List (String × MemVal))
    (stored : Option Mem) :
    (process_voice_command { userId := uid, command := "stop", memory := patch } stored).store
        "currentStep" = some (MemVal.str "stopped")
    ∧ (process_voice_command { userId := uid, command := "stop", memory := patch }
        stored).response.memory "currentStep" = some (MemVal.str "stopped")
    ∧ (process_voice_command { userId := uid, command := "stop", memory := patch }
        stored).response.responseText = "Voice assistant stopped. You can restart anytime."
    ∧ (process_voice_command { userId := uid, command := "stop", memory := patch }
        stored).events.map (fun e => e.event_type) = ["command_processed"] := by
  exact ⟨rfl, rfl, rfl, rfl⟩

/-- C3: when the remote capability is unreachable the turn still answers
through the same response schema (the same `VoiceIntentResponse` shape, by
construction), and its intent is one of the seven deterministic-resolver
tags — never the reserved failure tag "error". -/
theorem c3_fallback_intent_vocabulary (req : TurnInput) (stored : Option Mem)
    (o : RemoteOutcome) (now : String) (h : remoteUnavailable o) :
    (process_voice_intent req stored o now DefectPoint.noDefect).response.intent ∈ fallbackIntents
    ∧ (process_voice_intent req stored o now DefectPoint.noDefect).response.intent ≠ "error" := by
  have hm : (process_voice_intent req stored o now DefectPoint.noDefect).response.intent
      = (process_intent_with_context req.utterance
          (memUpdList (load_user_memory stored) req.memory)
          req.currentRoute req.pageContext).intent := by
    rcases h with h | h | h <;> subst h <;> rfl
  constructor
  · rw [hm]
    exact fallback_intent_mem req.utterance (memUpdList (load_user_memory stored) req.memory)
      req.currentRoute req.pageContext
  · rw [hm]
    intro he
    have hb := fallback_intent_mem req.utterance
      (memUpdList (load_user_memory stored) req.memory) req.currentRoute req.pageContext
    rw [he] at hb
    simp [fallbackIntents] at hb

/-- C3 witness: a concrete turn with no credential configured. -/
theorem c3_witness :
    ((process_voice_intent { utterance := "hi" } Option.none RemoteOutcome.noKey "t0"
        DefectPoint.noDefect).response.intent ∈ fallbackIntents)
    ∧ (process_voice_intent { utterance := "hi" } Option.none RemoteOutcome.noKey "t0"
        DefectPoint.noDefect).response.intent ≠ "error" :=
  c3_fallback_intent_vocabulary { utterance := "hi" } Option.none RemoteOutcome.noKey "t0"
    (Or.inl rfl)

/-- C4: the Deterministic Intent Resolver is total — on every utterance,
memory, route and page context it returns a non-empty response text and an
intent tag from its bounded vocabulary. -/
theorem c4_deterministic_resolver_total (u : String) (m : Mem) (r : Option String)
    (p : Option PageContext) :
    (process_intent_with_context u m r p).responseText ≠ ""
    ∧ (process_intent_with_context u m r p).intent ∈ fallbackIntents := by
  refine ⟨?_, fallback_intent_mem u m r p⟩
  unfold process_intent_with_context
  dsimp only
  repeat' split
  all_goals (first
    | (simp; done)
    | ((repeat (apply str_append_ne_empty)); simp; done))

/-- C5: the Context Analyzer maps every route matching none of the patterns
(and an absent route) to the default route key "home" with the home route
record, whose capability set is non-empty; it is totally defined. -/
theorem c5_context_analyzer_default_route (r : Option String) (p : Option PageContext)
    (h : ∀ s, r = some s →
      s ≠ "/" ∧ s ≠ "/home" ∧ isSub "/signup" s = false ∧ isSub "/login" s = false
      ∧ isSub "/course/" s = false ∧ isSub "/school/admin" s = false) :
    (analyze_page_context r p).route_key = "home"
    ∧ (analyze_page_context r p).route_info = homeInfo
    ∧ homeInfo.capabilities ≠ [] := by
  have hk : computeRouteKey r = "home" := by
    cases r with
    | none => rfl
    | some s =>
      obtain ⟨h1, h2, h3, h4, h5, h6⟩ := h s rfl
      unfold computeRouteKey
      simp [h1, h2, h3, h4, h5, h6]
  refine ⟨?_, ?_, by decide⟩
  · show computeRouteKey r = "home"
    exact hk
  · show (ROUTE_MAPPING.lookup (computeRouteKey r)).getD homeInfo = homeInfo
    rw [hk]
    rfl

/-- C5 witness: an unmatched concrete route. -/
theorem c5_witness :
    (analyze_page_context (some "/dashboard") Option.none).route_key = "home"
    ∧ (analyze_page_context (some "/dashboard") Option.none).route_info = homeInfo
    ∧ homeInfo.capabilities ≠ [] :=
  c5_context_analyzer_default_route (some "/dashboard") Option.none
    (fun s hs => by
      cases hs
      exact ⟨by decide, by decide, by decide, by decide, by decide, by decide⟩)

/-- C6 counterexample: a "click" action whose abstract target has a
selector-map entry of the same name is NOT remapped — the enhancer only
remaps "highlight" actions — refuting the claim that "highlight" and
"click" targets are remapped whenever a matching entry exists. -/
theorem c6_counterexample_click_not_remapped :
    enhance_action_with_context
        (some { type := some "click", target := some "create_course_btn" })
        c6HomeCtx "find_element"
      = some { type := "click", target := some "create_course_btn" }
    ∧ c6HomeCtx.context_analysis.available_selectors.lookup "create_course_btn"
      = some "button:contains(\x27Create course\x27)"
    ∧ ("create_course_btn" : String) ≠ "button:contains(\x27Create course\x27)" :=
  ⟨rfl, rfl, by decide⟩

/-- C6 amended: an absent action stays absent; a non-"highlight" action
(including "click") passes through unchanged; a "highlight" action is
remapped only when its target is one of the three hard-coded names
`create_course_btn`, `course_cards`, `email_field` and the selector map has
an entry of that name, and passes through unchanged otherwise. -/
theorem c6_amended_enhancer_behavior (ctx : ContextAnalysis) (intent : String)
    (a : ActionDict) :
    (enhance_action_with_context Option.none ctx intent = Option.none)
    ∧ (a.type.getD "speak" ≠ "highlight" →
        enhance_action_with_context (some a) ctx intent
          = some { type := a.type.getD "speak", target := a.target,
                   message := a.message, data := a.data })
    ∧ (a.target = Option.none →
        enhance_action_with_context (some a) ctx intent
          = some { type := a.type.getD "speak", target := Option.none,
                   message := a.message, data := a.data })
    ∧ (∀ t, a.target = some t → a.type.getD "speak" = "highlight" →
        t ∉ (["create_course_btn", "course_cards", "email_field"] : List String) →
        enhance_action_with_context (some a) ctx intent
          = some { type := "highlight", target := some t,
                   message := a.message, data := a.data })
    ∧ (∀ t, a.target = some t → a.type.getD "speak" = "highlight" →
        ctx.context_analysis.available_selectors.lookup t = Option.none →
        enhance_action_with_context (some a) ctx intent
          = some { type := "highlight", target := some t,
                   message := a.message, data := a.data })
    ∧ (∀ t sel, a.target = some t → a.type.getD "speak" = "highlight" → t ≠ "" →
        ctx.context_analysis.available_selectors.lookup t = some sel →
        t ∈ (["create_course_btn", "course_cards", "email_field"] : List String) →
        enhance_action_with_context (some a) ctx intent
          = some { type := "highlight", target := some sel,
                   message := a.message, data := a.data }) := by
  refine ⟨rfl, ?_, ?_, ?_, ?_, ?_⟩
  · intro hT
    have hc : ∀ t, ¬ (a.type.getD "speak" = "highlight" ∧ t ≠ "") :=
      fun t hand => hT hand.1
    cases ht : a.target with
    | none => simp [enhance_action_with_context, ht]
    | some t => simp [enhance_action_with_context, ht, hc t]
  · intro ht
    simp [enhance_action_with_context, ht]
  · intro t ht hT hmem
    have hm : t ≠ "create_course_btn" ∧ t ≠ "course_cards" ∧ t ≠ "email_field" := by
      simpa using hmem
    by_cases h0 : t = ""
    · subst h0
      simp [enhance_action_with_context, ht, hT]
    · simp [enhance_action_with_context, remapTarget, ht, hT, h0,
        hm.1, hm.2.1, hm.2.2]
  · intro t ht hT hlook
    by_cases h0 : t = ""
    · subst h0
      simp [enhance_action_with_context, ht, hT]
    · by_cases h1 : t = "create_course_btn"
      · subst h1
        simp [enhance_action_with_context, remapTarget, ht, hT, h0, hlook]
      · by_cases h2 : t = "course_cards"
        · subst h2
          simp [enhance_action_with_context, remapTarget, ht, hT, h0, hlook]
        · by_cases h3 : t = "email_field"
          · subst h3
            simp [enhance_action_with_context, remapTarget, ht, hT, h0, hlook]
          · simp [enhance_action_with_context, remapTarget, ht, hT, h0, h1, h2, h3]
  · intro t sel ht hT h0 hlook hmem
    have hm : t = "create_course_btn" ∨ t = "course_cards" ∨ t = "email_field" := by
      simpa using hmem
    rcases hm with rfl | rfl | rfl <;>
      simp [enhance_action_with_context, remapTarget, ht, hT, h0, hlook]

/-- C6 witness: concrete applications of the amended enhancer behavior on
the home-page selector map. -/
theorem c6_witness :
    (enhance_action_with_context
        (some { type := some "navigate", target := some "/x" }) c6HomeCtx "nav"
      = some { type := "navigate", target := some "/x" })
    ∧ (enhance_action_with_context
        (some (ActionDict.mk (some "highlight") Option.none Option.none Option.none))
        c6HomeCtx "help"
      = some { type := "highlight", target := Option.none })
    ∧ (enhance_action_with_context
        (some { type := some "highlight", target := some "signup_button" }) c6HomeCtx "help"
      = some { type := "highlight", target := some "signup_button" })
    ∧ (enhance_action_with_context
        (some { type := some "highlight", target := some "course_cards" })
        (analyze_page_context (some "/signup") Option.none) "browse_courses"
      = some { type := "highlight", target := some "course_cards" })
    ∧ (enhance_action_with_context
        (some { type := some "highlight", target := some "create_course_btn" }) c6HomeCtx
        "create_course"
      = some { type := "highlight", target := some "button:contains(\x27Create course\x27)" }) :=
  ⟨(c6_amended_enhancer_behavior c6HomeCtx "nav"
      { type := some "navigate", target := some "/x" }).2.1 (by decide),
   (c6_amended_enhancer_behavior c6HomeCtx "help"
      (ActionDict.mk (some "highlight") Option.none Option.none Option.none)).2.2.1 rfl,
   (c6_amended_enhancer_behavior c6HomeCtx "help"
      { type := some "highlight", target := some "signup_button" }).2.2.2.1
     "signup_button" rfl rfl (by decide),
   (c6_amended_enhancer_behavior (analyze_page_context (some "/signup") Option.none)
      "browse_courses"
      { type := some "highlight", target := some "course_cards" }).2.2.2.2.1
     "course_cards" rfl rfl rfl,
   (c6_amended_enhancer_behavior c6HomeCtx "create_course"
      { type := some "highlight", target := some "create_course_btn" }).2.2.2.2.2
     "create_course_btn" "button:contains(\x27Create course\x27)" rfl rfl (by decide) rfl
     (by decide)⟩

/-- C1 counterexample: on the deterministic path (no remote credential) the
analyzed page state is `no_courses` and the turn DOES answer with a
highlight action, but its target is the literal abstract identifier
`create_course_btn`, not the selector-map entry — the orchestrator never
routes the deterministic result through the Action Enhancer. -/
theorem c1_counterexample_fallback_target_abstract :
    (analyze_page_context (some "/") (some c1Page)).page_state = "no_courses"
    ∧ (process_voice_intent c1Req (some emptyMem) RemoteOutcome.noKey "t0"
        DefectPoint.noDefect).response.action
      = some { type := "highlight", target := some "create_course_btn",
               message := some "Click this button to create your first course" }
    ∧ (analyze_page_context (some "/") (some c1Page)).context_analysis.available_selectors.lookup
        "create_course_btn" = some "button:contains(\x27Create course\x27)"
    ∧ ("create_course_btn" : String) ≠ "button:contains(\x27Create course\x27)" :=
  ⟨rfl, rfl, rfl, by decide⟩

/-- C1 amended: in the scenario (utterance "create course", route "/",
analyzed page state `no_courses`) the turn resolved on the deterministic
fallback path outputs a highlight action whose target is the literal
abstract identifier `create_course_btn`; the remap through the selector map
to the concrete create-course control happens only in the Action Enhancer,
which the orchestrator applies only on the remote-success path. -/
theorem c1_amended_fallback_target_literal :
    (process_voice_intent c1Req (some emptyMem) RemoteOutcome.noKey "t0"
        DefectPoint.noDefect).response.action
      = some { type := "highlight", target := some "create_course_btn",
               message := some "Click this button to create your first course" }
    ∧ enhance_action_with_context
        (some { type := some "highlight", target := some "create_course_btn",
                message := some "Click this button to create your first course" })
        (analyze_page_context (some "/") (some c1Page)) "create_course"
      = some { type := "highlight", target := some "button:contains(\x27Create course\x27)",
               message := some "Click this button to create your first course" } :=
  ⟨rfl, rfl⟩

/-- C10 counterexample: a defect striking after the persist step (for
example the response-model validation of a type-malformed remote reply,
which runs after `save_user_memory`) reaches the same error handler, yet the
stored record HAS changed this turn — the prior record had no
`lastUtterance` key, the stored one now does — refuting unconditional
no-write-on-error atomicity. -/
theorem c10_counterexample_write_before_defect :
    ((process_voice_intent c10Req (some emptyMem) RemoteOutcome.noKey "t0"
        DefectPoint.afterSave).store.map (fun m => m "lastUtterance"))
      = some (some (MemVal.str "hello"))
    ∧ emptyMem "lastUtterance" = Option.none
    ∧ (process_voice_intent c10Req (some emptyMem) RemoteOutcome.noKey "t0"
        DefectPoint.afterSave).response.intent = "error" :=
  ⟨rfl, rfl, rfl⟩

/-- C10 amended: a defect that strikes before the persist step leaves the
stored record untouched, and in every defect case the error response memory
field is exactly the caller-supplied request patch (never the stored record
merged with it). -/
theorem c10_amended_error_memory_passthrough (req : TurnInput) (stored : Option Mem)
    (o : RemoteOutcome) (now : String) :
    (process_voice_intent req stored o now DefectPoint.beforeSave).store = stored
    ∧ (process_voice_intent req stored o now DefectPoint.beforeSave).response.memory
      = memFromList req.memory
    ∧ (process_voice_intent req stored o now DefectPoint.afterSave).response.memory
      = memFromList req.memory :=
  ⟨rfl, rfl, rfl⟩
